import Mathlib

/-!
Verification of the prez profile-driven query compiler and content-negotiation
engine: a shallow embedding of the query-text builders in
`prez/services/sparql_new.py`, `prez/services/connegp_service.py`,
`prez/sparql/search_query.py` and the federated-search retry loop in
`prez/app.py`, with theorems settling the specification claims.

Python strings are modelled as Lean `String`; Python `int` as `Int`/`Nat`;
Python `float` weights as `Rat`; Python `None`-able values as `Option`.
Brace characters inside SPARQL text are written with the escapes \x7b and
\x7d.
-/

set_option maxRecDepth 20000
set_option maxHeartbeats 1000000

/-! ## Generic string helpers (executable, kernel-reducible) -/

/-- Boolean prefix test on character lists. -/
def isPre : List Char → List Char → Bool
  | [], _ => true
  | _ :: _, [] => false
  | a :: ps, b :: ls => a == b && isPre ps ls

/-- Boolean substring test on character lists (Python `in`). -/
def containsSub (pat : List Char) : List Char → Bool
  | [] => pat.isEmpty
  | b :: t => isPre pat (b :: t) || containsSub pat t

/-- Substring test on strings. -/
def strContains (s pat : String) : Bool := containsSub pat.data s.data

/-- Python `sep.join(strings)`. -/
def joinSep (sep : String) : List String → String
  | [] => ""
  | [x] => x
  | x :: y :: t => x ++ sep ++ joinSep sep (y :: t)

/-- Concatenation of a list of strings (Python `"".join`). -/
def joinAll : List String → String
  | [] => ""
  | x :: t => x ++ joinAll t

/-- Python `c * n` for a single character (e.g. `chr(9) * n`). -/
def repChar (c : Char) (n : Nat) : String := String.mk (List.replicate n c)

/-- Decimal digit character for `n % 10`. -/
def digitChar10 (n : Nat) : Char :=
  if n = 0 then '0' else if n = 1 then '1' else if n = 2 then '2'
  else if n = 3 then '3' else if n = 4 then '4' else if n = 5 then '5'
  else if n = 6 then '6' else if n = 7 then '7' else if n = 8 then '8' else '9'

/-- Fuel-driven decimal rendering of a natural number. -/
def natReprAux : Nat → Nat → List Char
  | 0, _ => []
  | fuel + 1, n =>
    if n < 10 then [digitChar10 n]
    else natReprAux fuel (n / 10) ++ [digitChar10 (n % 10)]

/-- Python `str(n)` for a non-negative integer. -/
def natRepr (n : Nat) : String := String.mk (natReprAux (n + 1) n)

/-- Python `str(i)` for an integer. -/
def intRepr : Int → String
  | Int.ofNat n => natRepr n
  | Int.negSucc n => "-" ++ natRepr (n + 1)

/-- Number of occurrences of a character in a string. -/
def countCh (c : Char) (s : String) : Nat := s.data.count c

/-- Fuel-driven replacement of every occurrence of `pat` (Python `str.replace`). -/
def replaceAux (pat rep : List Char) : List Char → Nat → List Char
  | l, 0 => l
  | [], _ + 1 => []
  | c :: t, fuel + 1 =>
    if isPre pat (c :: t) then rep ++ replaceAux pat rep ((c :: t).drop pat.length) fuel
    else c :: replaceAux pat rep t fuel

/-- Python `s.replace(pat, rep)` for a non-empty pattern. -/
def strReplace (s pat rep : String) : String :=
  String.mk (replaceAux pat.data rep.data s.data (s.data.length + 1))

/-- Fuel-driven split on a separator (Python `s.split(sep)`, non-empty `sep`). -/
def splitOnAux (sep : List Char) : List Char → List Char → Nat → List (List Char)
  | acc, [], _ => [acc.reverse]
  | acc, l, 0 => [(acc.reverse) ++ l]
  | acc, c :: t, fuel + 1 =>
    if isPre sep (c :: t) then
      acc.reverse :: splitOnAux sep [] ((c :: t).drop sep.length) fuel
    else splitOnAux sep (c :: acc) t fuel

/-- Python `s.split(sep)` for a non-empty separator. -/
def pySplit (s sep : String) : List String :=
  (splitOnAux sep.data [] s.data (s.data.length + 1)).map String.mk

/-- Python `s.strip(chars)`: drop characters of the set from both ends. -/
def pyStrip (s : String) (chars : List Char) : String :=
  String.mk (((s.data.dropWhile (chars.contains ·)).reverse.dropWhile
    (chars.contains ·)).reverse)

/-- ASCII lower-casing of one character (models SPARQL LCASE / regex "i" flag
for the ASCII range exercised by the claims). -/
def asciiLower (c : Char) : Char :=
  if 'A' ≤ c ∧ c ≤ 'Z' then Char.ofNat (c.toNat + 32) else c

/-- ASCII lower-casing of a string. -/
def lowerStr (s : String) : String := String.mk (s.data.map asciiLower)

/-- Scanner deciding whether every SPARQL short-string literal opened by an
unescaped double quote is closed again: `false` means the text ends inside an
open string literal, i.e. the query cannot be tokenised as well-formed. -/
def quoteScan : List Char → Bool → Bool
  | [], inside => !inside
  | c :: t, false => if c == '\x22' then quoteScan t true else quoteScan t false
  | c :: t, true =>
    if c == '\\' then
      match t with
      | [] => false
      | _ :: t2 => quoteScan t2 true
    else if c == '\x22' then quoteScan t false else quoteScan t true

/-- Quote-balance check for a whole query text. -/
def quoteBalanced (s : String) : Bool := quoteScan s.data false

/-! ## Embedding of prez/services/sparql_new.py -/

/-- The fields of a `SpatialItem` read by `generate_listing_construct`:
`uri` (Python `None` or an URI string, tested for truthiness),
`children_general_class` and `link_constructor`. -/
structure SpatialItem where
  uri : Option String
  children_general_class : String
  link_constructor : String
deriving DecidableEq

/-- The profile dictionary as consumed by this module: `profile.get("uri")`
and `profile.get("bnode_depth", 2)` are the only keys read; `extra` stands
for any further entries of the Python dict. -/
structure ProfileDict where
  uri : Option String
  bnode_depth : Option Nat
  extra : List (String × String)
deriving DecidableEq

/-- The pagination suffix of `generate_listing_construct`:
`f"LIMIT {per_page} OFFSET {(page - 1) * per_page}"` when both `page` and
`per_page` are not `None`, otherwise the empty string. -/
def paginationClause (page per_page : Option Int) : String :=
  match page, per_page with
  | some pg, some pp => "LIMIT " ++ intRepr pp ++ " OFFSET " ++ intRepr ((pg - 1) * pp)
  | _, _ => ""

/-- Everything of the listing construct query before the pagination clause
(the f-string of `generate_listing_construct` up to the final `}}`). -/
def listingConstructBody (item : SpatialItem) : String :=
  "PREFIX dcterms: <http://purl.org/dc/terms/>\n" ++
  "PREFIX prez: <https://kurrawong.net/prez/>\n" ++
  "PREFIX rdf: <http://www.w3.org/1999/02/22-rdf-syntax-ns#>\n" ++
  "PREFIX rdfs: <http://www.w3.org/2000/01/rdf-schema#>\n" ++
  "PREFIX xsd: <http://www.w3.org/2001/XMLSchema#>\n" ++
  "PREFIX skos: <http://www.w3.org/2004/02/skos/core#>\n" ++
  "PREFIX dcterms: <http://purl.org/dc/terms/>\n" ++
  "\n" ++
  "CONSTRUCT \x7b ?item dcterms:identifier ?id ;\n" ++
  "                   rdfs:label ?label ;\n" ++
  "                   prez:link ?link .\n" ++
  "            prez:memberList a rdf:Bag ;\n" ++
  "                    rdfs:member ?item .\x7d\n" ++
  "WHERE \x7b " ++
  (match item.uri with
   | some u => "\n" ++ "\t" ++ "<" ++ u ++ "> rdfs:member ?item ."
   | none => "") ++
  "\n" ++
  "    ?item a <" ++ item.children_general_class ++ "> ;\n" ++
  "          dcterms:identifier ?id ;\n" ++
  "          rdfs:label|dcterms:title|skos:prefLabel ?label .\n" ++
  "  \tFILTER(DATATYPE(?id) = xsd:token)\n" ++
  "  \tBIND(CONCAT(\"" ++ item.link_constructor ++ "\", STR(?id)) AS ?link)\n" ++
  "    \x7d "

/-- `generate_listing_construct(item, page, per_page, profile)`: the profile
argument is accepted but unused (as in the source). -/
def generate_listing_construct (item : SpatialItem) (page per_page : Option Int)
    (_profile : ProfileDict) : String :=
  listingConstructBody item ++ paginationClause page per_page ++ "\n    "

/-- `generate_include_predicates`: a `VALUES ?p` clause listing the include
predicates, or the empty string when the list is falsy. -/
def generate_include_predicates (include_predicates : List String) : String :=
  if include_predicates.isEmpty then ""
  else "VALUES ?p\x7b\n" ++
    joinSep "\n" (include_predicates.map (fun p => "<" ++ p ++ ">")) ++ "\n\x7d"

/-- `generate_inverse_predicates`: a `VALUES ?inbound_p` clause, or empty. -/
def generate_inverse_predicates (inverse_predicates : List String) : String :=
  if inverse_predicates.isEmpty then ""
  else "VALUES ?inbound_p\x7b\n" ++
    joinSep "\n" (inverse_predicates.map (fun p => "<" ++ p ++ ">")) ++ "\n\x7d"

/-- One sequence-path block of `generate_sequence_construct` (the Python
code indexes `predicate_list[0]`, raising on an empty inner list, which the
callers never pass). -/
def sequenceConstructOne (object_uri : String) : List String → String
  | [] => ""
  | p0 :: rest =>
    "\t<" ++ object_uri ++ "> <" ++ p0 ++ "> ?seq_o1 ." ++
    joinAll ((List.range rest.length).map (fun i =>
      "\n\t?seq_o" ++ natRepr (i + 1) ++ " <" ++ rest.get! i ++ "> ?seq_o" ++
      natRepr (i + 2) ++ " ."))

/-- `generate_sequence_construct(object_uri, sequence_predicates)`. -/
def generate_sequence_construct (object_uri : String)
    (sequence_predicates : List (List String)) : String :=
  if sequence_predicates.isEmpty then ""
  else joinAll (sequence_predicates.map (sequenceConstructOne object_uri))

/-- `generate_bnode_construct(depth)`. -/
def generate_bnode_construct (depth : Nat) : String :=
  "\n" ++ joinSep "\n" ((List.range depth).map (fun i =>
    "\t?o" ++ natRepr (i + 1) ++ " ?p" ++ natRepr (i + 2) ++ " ?o" ++
    natRepr (i + 2) ++ " ."))

/-- One `OPTIONAL` level of `generate_bnode_select`: the block opened at
depth `i` (0-based), guarded by `FILTER(ISBLANK(?o(i+1)))` and chaining
`?o(i+1) ?p(i+2) ?o(i+2)`. -/
def bnodeLine (i : Nat) : String :=
  repChar '\t' (i + 1) ++ "OPTIONAL \x7b\n" ++
  repChar '\t' (i + 2) ++ "FILTER(ISBLANK(?o" ++ natRepr (i + 1) ++ "))\n" ++
  repChar '\t' (i + 2) ++ "?o" ++ natRepr (i + 1) ++ " ?p" ++ natRepr (i + 2) ++
  " ?o" ++ natRepr (i + 2) ++ " ."

/-- `generate_bnode_select(depth)`: `depth` nested OPTIONAL blocks followed
by the matching closing braces. -/
def generate_bnode_select (depth : Nat) : String :=
  joinSep "\n" ((List.range depth).map bnodeLine) ++
  joinAll ((List.range depth).reverse.map (fun i =>
    "\n" ++ repChar '\t' (i + 1) ++ "\x7d"))

/-- `generage_large_outbound_links(uri, outbound_predicate, limit=10)`; the
source reads `outbound_predicate[0]`, i.e. the first element of the list it
is passed (an `IndexError` on an empty list, which the caller guards). -/
def generage_large_outbound_links (uri : String) (outbound_predicate : List String)
    (limit : Nat := 10) : String :=
  "UNION\n\t\x7b\n\tSELECT * \x7b\n\t<" ++ uri ++ "> <" ++
  outbound_predicate.headD "" ++ "> ?o1 ;\n\t\t?p ?o1\n\t\x7d LIMIT " ++
  natRepr limit ++ "\x7d\n    "

/-- The body of `generate_item_construct` after the destructuring of the
`get_profile_predicates` result. The destructured `exclude_predicates`
value is bound but never used by the source, which this embedding makes
explicit through the unused polymorphic argument. -/
def itemConstructCore {α : Type} (object_uri : String)
    (include_predicates : List String) (_exclude_predicates : α)
    (inverse_predicates : List String) (sequence_predicates : List (List String))
    (large_outbound_predicates : List String) (bnode_depth : Nat) : String :=
  "PREFIX rdfs: <http://www.w3.org/2000/01/rdf-schema#>\n\n" ++
  "CONSTRUCT \x7b\n" ++
  "\t<" ++ object_uri ++ "> ?p ?o1 .\n" ++
  (if sequence_predicates.isEmpty then ""
   else generate_sequence_construct object_uri sequence_predicates) ++ " " ++
  (if inverse_predicates.isEmpty then ""
   else "\t?s ?inbound_p <" ++ object_uri ++ "> .") ++ " " ++
  generate_bnode_construct bnode_depth ++ " " ++
  "\n\x7d\n" ++
  "WHERE \x7b\n" ++
  "    \x7b\n" ++
  "    <" ++ object_uri ++ "> ?p ?o1 . " ++
  "    " ++ (if sequence_predicates.isEmpty then "\n"
             else generate_sequence_construct object_uri sequence_predicates) ++ " " ++
  "    " ++ (if inverse_predicates.isEmpty then "\n"
             else "?s ?inbound_p <" ++ object_uri ++ ">\n") ++ " " ++
  "    " ++ generate_include_predicates include_predicates ++ " " ++
  "    " ++ generate_inverse_predicates inverse_predicates ++ " " ++
  "    " ++ generate_bnode_select bnode_depth ++ " " ++
  "    \x7d " ++
  "    " ++ (if large_outbound_predicates.isEmpty then ""
             else generage_large_outbound_links object_uri large_outbound_predicates) ++
  " " ++
  "\x7d\n"

/-- `get_profile_predicates` with a relevant node shape returns
`(includes, Ellipsis, inverses, sequence_paths, large_outbound)`: the
exclude slot is the literal Python `Ellipsis` placeholder, never a list of
predicates. -/
inductive PyEllipsis
  | mk
deriving DecidableEq

/-- An RDF triple of the profiles graph (IRIs and blank nodes as strings). -/
abbrev RdfTriple := String × String × String

/-- The profiles graph cache, as a list of triples. -/
abbrev RdfGraph := List RdfTriple

/-- rdflib `graph.objects(subject, predicate)`; `subject = None` matches
every subject. -/
def objectsOf (g : RdfGraph) (s : Option String) (p : String) : List String :=
  (g.filter (fun t =>
    (match s with | none => true | some s0 => t.1 == s0) && t.2.1 == p)).map
    (fun t => t.2.2)

/-- rdflib `graph.triples_choices((subjects, predicate, None))`. -/
def triplesChoices (g : RdfGraph) (ss : List String) (p : String) : List RdfTriple :=
  ss.flatMap (fun s => g.filter (fun t => t.1 == s && t.2.1 == p))

/-- rdflib `graph.triples_choices((subjects, predicate, object))`. -/
def triplesChoicesO (g : RdfGraph) (ss : List String) (p o : String) : List RdfTriple :=
  ss.flatMap (fun s => g.filter (fun t => t.1 == s && t.2.1 == p && t.2.2 == o))

/-- rdflib `graph.items(node)`: walk an rdf:first/rdf:rest collection
(fuel-bounded by the graph size). -/
def listItemsAux (g : RdfGraph) : Nat → String → List String
  | 0, _ => []
  | fuel + 1, n =>
    if n == "http://www.w3.org/1999/02/22-rdf-syntax-ns#nil" then []
    else
      match (objectsOf g (some n) "http://www.w3.org/1999/02/22-rdf-syntax-ns#first").head? with
      | none => []
      | some v =>
        v :: (match (objectsOf g (some n) "http://www.w3.org/1999/02/22-rdf-syntax-ns#rest").head? with
              | none => []
              | some r => listItemsAux g fuel r)

/-- rdflib `Collection` iteration from a head node. -/
def listItems (g : RdfGraph) (n : String) : List String :=
  listItemsAux g (g.length + 1) n

/-- `get_profile_predicates(profile, general_class)` over the profiles graph.
The Python function returns the five-tuple `(None, None, None, None, None)`
when no node shape targets the class; since every consumer only tests those
slots for truthiness, the `None` slots are modelled as empty lists, and the
`Ellipsis` exclude slot as `Option PyEllipsis`. -/
def get_profile_predicates (g : RdfGraph) (profile : ProfileDict)
    (general_class : String) :
    List String × Option PyEllipsis × List String × List (List String) × List String :=
  let shape_bns := objectsOf g profile.uri "http://www.w3.org/ns/dx/conneg/altr-ext#hasNodeShape"
  let relevant_shape_bns :=
    (triplesChoicesO g shape_bns "http://www.w3.org/ns/shacl#targetClass" general_class).map
      (fun t => t.1)
  if relevant_shape_bns.isEmpty then ([], none, [], [], [])
  else
    let includes := (triplesChoices g relevant_shape_bns "http://www.w3.org/ns/shacl#path").map
      (fun t => t.2.2)
    let inverses := (triplesChoices g relevant_shape_bns "http://www.w3.org/ns/shacl#inversePath").map
      (fun t => t.2.2)
    let sequence_nodes := (triplesChoices g relevant_shape_bns "http://www.w3.org/ns/shacl#sequencePath").map
      (fun t => t.2.2)
    let sequence_paths := sequence_nodes.map (listItems g)
    let large_outbound := (triplesChoices g relevant_shape_bns "http://www.w3.org/ns/dx/conneg/altr-ext#largeOutboundLinks").map
      (fun t => t.2.2)
    (includes, some PyEllipsis.mk, inverses, sequence_paths, large_outbound)

/-- `generate_item_construct(item, profile)`: resolve the predicate lists and
hand them (exclude slot included, though unused) to the query body. -/
def generate_item_construct (g : RdfGraph) (item_uri item_general_class : String)
    (profile : ProfileDict) : String :=
  match get_profile_predicates g profile item_general_class with
  | (incl, excl, inv, seqs, lg) =>
    itemConstructCore item_uri incl excl inv seqs lg (profile.bnode_depth.getD 2)

/-! ## Embedding of prez/services/connegp_service.py -/

/-- The token-resolution query template of `NegotiatedPMTs._resolve_token`,
with the `textwrap.dedent` margin-stripping already applied (a uniform
transformation for tokens without newline characters, which is the case for
every input considered below). The user-supplied token is substituted for
the placeholder by plain string replacement. -/
def resolveTokenTemplate : String :=
  "\nPREFIX dcterms: <http://purl.org/dc/terms/>\n" ++
  "PREFIX xsd: <http://www.w3.org/2001/XMLSchema#>\n" ++
  "PREFIX prof: <http://www.w3.org/ns/dx/prof/>\n" ++
  "\n" ++
  "SELECT ?profile\n" ++
  "WHERE \x7b\n" ++
  "    ?profile a prof:Profile .\n" ++
  "    ?profile dcterms:identifier ?o .\n" ++
  "    FILTER(?o=\"<token>\"^^xsd:token)\n" ++
  "\x7d\n"

/-- `_resolve_token`'s query construction:
`query_str.replace("<token>", token)`. -/
def resolveTokenQuery (token : String) : String :=
  strReplace resolveTokenTemplate "<token>" token

/-- An exact decimal float value `mantissa * 10 ^ (- exp10)`: the model of
the Python floats this module handles (preference weights, written in plain
decimal notation). The representation is not normalised; no claim compares
distinct spellings of one value. -/
structure PyFloat where
  mantissa : Int
  exp10 : Nat
deriving DecidableEq

/-- A Python value that is either a string or a float; `_tupilize` returns
the weight slot with either type. -/
inductive PyVal
  | str (s : String)
  | num (f : PyFloat)
deriving DecidableEq

/-- A small model of Python `float(s)` for decimal notation
(optional sign, digits, optional fractional part), returning `none` exactly
when Python raises `ValueError`. Exponent and inf/nan forms are not needed
by any claim. -/
def pyFloatQ (s : String) : Option PyFloat :=
  let l := s.data.dropWhile (fun c => c == ' ')
  let l := (l.reverse.dropWhile (fun c => c == ' ')).reverse
  let (sign, l) : Int × List Char :=
    match l with
    | '-' :: t => (-1, t)
    | '+' :: t => (1, t)
    | _ => (1, l)
  let intDigits := l.takeWhile Char.isDigit
  let rest := l.drop intDigits.length
  let digitsVal : List Char → Nat := fun ds =>
    ds.foldl (fun a c => 10 * a + (c.toNat - 48)) 0
  match rest with
  | [] =>
    if intDigits.isEmpty then none
    else some ⟨sign * (digitsVal intDigits : Int), 0⟩
  | '.' :: fracPart =>
    let fracDigits := fracPart.takeWhile Char.isDigit
    if fracPart.length ≠ fracDigits.length then none
    else if intDigits.isEmpty && fracDigits.isEmpty then none
    else some ⟨sign * ((digitsVal intDigits * 10 ^ fracDigits.length +
      digitsVal fracDigits : Nat) : Int), fracDigits.length⟩
  | _ => none

/-- `NegotiatedPMTs._tupilize(string)` for the media-type path
(`is_profile=False`; the profile path only rewrites the first component
through external token/CURIE resolution before the same weight handling).
Splits out the `q=` weighting, strips separator characters, and type-checks
the weight: on a `ValueError` the source merely logs — the unparsed string
is returned as the weight. -/
def tupilize (default_weighting : PyFloat) (s : String) : String × PyVal :=
  let parts := pySplit s "q="
  let p0 := pyStrip (parts.headD "") [' ', ';']
  match parts with
  | [] => (p0, PyVal.num default_weighting)
  | [_] => (p0, PyVal.num default_weighting)
  | _ :: p1 :: _ =>
    match pyFloatQ p1 with
    | some v => (p0, PyVal.num v)
    | none => (p0, PyVal.str p1)

/-- Python `str(...)` for one of these float values: the integer part, a
dot, and the zero-padded fractional digits (`str(1.0) = "1.0"`,
`str(0.5) = "0.5"`). -/
def pyFloatStr (f : PyFloat) : String :=
  if f.exp10 = 0 then intRepr f.mantissa ++ ".0"
  else
    (if f.mantissa < 0 then "-" else "") ++
    natRepr (f.mantissa.natAbs / 10 ^ f.exp10) ++ "." ++
    repChar '0' (f.exp10 - (natRepr (f.mantissa.natAbs % 10 ^ f.exp10)).data.length) ++
    natRepr (f.mantissa.natAbs % 10 ^ f.exp10)

/-- Python `str(...)` for the weight slot as used when rendering IF
statements: strings render as themselves, floats by `pyFloatStr`. -/
def pyValStr : PyVal → String
  | PyVal.str s => s
  | PyVal.num f => pyFloatStr f

/-- One member of the set comprehension in
`_generate_mediatype_if_statements`:
`chr(9) + 'IF(?format="' + tup[0] + '", "' + str(tup[1]) + '\x22'`. -/
def ifLine (tup : String × PyVal) : String :=
  "\tIF(?format=\"" ++ tup.1 ++ "\", \"" ++ pyValStr tup.2 ++ "\""

/-- The Python set built by the comprehension, as its list of distinct
elements in insertion order; an actual CPython enumeration of this set is
some permutation of it, not fixed by the language across runs. -/
def ifLineSet (mts : List (String × PyVal)) : List String :=
  (mts.map ifLine).dedup

/-- `_generate_mediatype_if_statements`, parameterised by the enumeration
order `enum` in which the set of IF lines is iterated by `line_join.join`. -/
def mkMediatypeIfs (requested_mediatypes : Option (List (String × PyVal)))
    (enum : List String) : String :=
  match requested_mediatypes with
  | none => ""
  | some [] => ""
  | some mts =>
    "BIND(\n" ++ joinSep ",\n" enum ++ ", \"\"" ++ repChar ')' mts.length ++
    "\n\tAS ?req_format)"

/-- The constant tail of `_compose_select_query` from the GROUP BY clause on:
the committed ordering directive of the negotiation query. -/
def orderByTail : String :=
  "            GROUP BY ?class ?profile ?req_profile ?def_profile ?format ?req_format ?def_format ?title\n" ++
  "            ORDER BY DESC(?req_profile) DESC(?distance) DESC(?def_profile) DESC(?req_format) DESC(?def_format)\n" ++
  "            "

/-- The `requested_profile` local of `_compose_select_query`:
`self.requested_profiles[0][0]` when the prioritised list is non-empty,
else `None`. -/
def requestedProfileOf (requested_profiles : Option (List (String × PyVal))) :
    Option String :=
  match requested_profiles with
  | some (x :: _) => some x.1
  | _ => none

/-- Everything of `_compose_select_query` before `orderByTail`. The source
wraps the f-string in `textwrap.dedent`, which strips a uniform margin only
when no tab-indented IF lines are present; that whitespace normalisation is
omitted here as it affects no stated property. -/
def composeSelectBody (listing : Bool) (classes : List String)
    (requested_profiles : Option (List (String × PyVal)))
    (requested_mediatypes : Option (List (String × PyVal)))
    (mtEnum : List String) : String :=
  "\n" ++
  "            PREFIX altr-ext: <http://www.w3.org/ns/dx/connegp/altr-ext#>\n" ++
  "            PREFIX dcat: <http://www.w3.org/ns/dcat#>\n" ++
  "            PREFIX dcterms: <http://purl.org/dc/terms/>\n" ++
  "            PREFIX geo: <http://www.opengis.net/ont/geosparql#>\n" ++
  "            PREFIX prez: <https://prez.dev/>\n" ++
  "            PREFIX prof: <http://www.w3.org/ns/dx/prof/>\n" ++
  "            PREFIX rdf: <http://www.w3.org/1999/02/22-rdf-syntax-ns#>\n" ++
  "            PREFIX rdfs: <http://www.w3.org/2000/01/rdf-schema#>\n" ++
  "            PREFIX skos: <http://www.w3.org/2004/02/skos/core#>\n" ++
  "            PREFIX sh: <http://www.w3.org/ns/shacl#>\n" ++
  "        \n" ++
  "            SELECT ?profile ?title ?class (count(?mid) as ?distance) ?req_profile ?def_profile ?format ?req_format ?def_format\n" ++
  "        \n" ++
  "            WHERE \x7b\n" ++
  "              VALUES ?class \x7b" ++
  joinSep " " (classes.map (fun k => "<" ++ k ++ ">")) ++ "\x7d\n" ++
  "              ?class rdfs:subClassOf* ?mid .\n" ++
  "              ?mid rdfs:subClassOf* ?base_class .\n" ++
  "              VALUES ?base_class \x7b dcat:Dataset geo:FeatureCollection geo:Feature\n" ++
  "              skos:ConceptScheme skos:Concept skos:Collection \n" ++
  "              dcat:Catalog rdf:Resource dcat:Resource prof:Profile prez:SPARQLQuery \n" ++
  "              prez:SearchResult prez:CQLObjectList prez:QueryablesList prez:Object rdfs:Resource \x7d\n" ++
  "              ?profile altr-ext:constrainsClass ?class ;\n" ++
  "                       altr-ext:hasResourceFormat ?format ;\n" ++
  "                       dcterms:title ?title ." ++
  "              " ++ "?profile a " ++
  (if listing then "<https://prez.dev/ListingProfile>" else "<https://prez.dev/ObjectProfile>") ++
  " .\n" ++
  "              " ++
  (match requestedProfileOf requested_profiles with
   | some rp => "BIND(?profile=" ++ rp ++ " as ?req_profile)"
   | none => "") ++ "\n" ++
  "              BIND(EXISTS \x7b ?shape sh:targetClass ?class ;\n" ++
  "                                   altr-ext:hasDefaultProfile ?profile \x7d AS ?def_profile)\n" ++
  "              " ++ mkMediatypeIfs requested_mediatypes mtEnum ++ "\n" ++
  "              BIND(EXISTS \x7b ?profile altr-ext:hasDefaultResourceFormat ?format \x7d AS ?def_format)\n" ++
  "            \x7d\n"

/-- `NegotiatedPMTs._compose_select_query`. -/
def composeSelectQuery (listing : Bool) (classes : List String)
    (requested_profiles requested_mediatypes : Option (List (String × PyVal)))
    (mtEnum : List String) : String :=
  composeSelectBody listing classes requested_profiles requested_mediatypes mtEnum ++
  orderByTail

/-- The semantic reading of the query's five ORDER BY keys for one
available combination: requested-profile indicator, subclass distance,
default-profile flag, requested-format weight string (bound by the IF
chain, `""` when unmatched), default-format flag. -/
structure RankRow where
  req_profile : Bool
  distance : Nat
  def_profile : Bool
  req_format : String
  def_format : Bool
deriving DecidableEq

/-- `a` is ranked strictly above `b` by
`ORDER BY DESC(?req_profile) DESC(?distance) DESC(?def_profile)
DESC(?req_format) DESC(?def_format)`: descending lexicographic comparison
of the five keys. -/
def rankAbove (a b : RankRow) : Prop :=
  (a.req_profile = true ∧ b.req_profile = false) ∨
  (a.req_profile = b.req_profile ∧
    (b.distance < a.distance ∨
      (a.distance = b.distance ∧
        ((a.def_profile = true ∧ b.def_profile = false) ∨
          (a.def_profile = b.def_profile ∧
            (b.req_format < a.req_format ∨
              (a.req_format = b.req_format ∧
                (a.def_format = true ∧ b.def_format = false))))))))

instance (a b : RankRow) : Decidable (rankAbove a b) := by
  unfold rankAbove; infer_instance

/-- One available profile-by-mediatype combination as parsed by
`_get_available` from a result row. -/
structure PMT where
  profile : String
  title : String
  mediatype : String
  klass : String
deriving DecidableEq

/-- `_get_available`: raises `NoProfilesException` on an empty result set,
otherwise returns the combinations in result order. -/
def getAvailable (rows : List PMT) : Except String (List PMT) :=
  if rows.isEmpty then Except.error "NoProfilesException" else Except.ok rows

/-- The selection step of `NegotiatedPMTs.setup`:
`self.available = await self._get_available(); self.selected = self.available[0]`.
Returns the committed selection together with the retained full list. -/
def setupFrom (rows : List PMT) : Except String (PMT × List PMT) :=
  match getAvailable rows with
  | Except.error e => Except.error e
  | Except.ok av =>
    match av with
    | [] => Except.error "NoProfilesException"
    | a :: _ => Except.ok (a, av)

/-- The leading `rel="profile"` link of `generate_response_headers`. -/
def selfProfLink (selected : PMT) : String :=
  "<" ++ selected.profile ++ ">; rel=\"profile\""

/-- One alternate-profile link of `generate_response_headers`; `curieFor`
models the external `get_curie_id_for_uri` collaborator. -/
def profLink (curieFor : String → String) (pmt : String × String) : String :=
  "<http://www.w3.org/ns/dx/prof/Profile>; rel=\"type\"; title=\"" ++ pmt.2 ++
  "\"; token=\"" ++ curieFor pmt.1 ++ "\"; anchor=\"" ++ pmt.1 ++ "\""

/-- The profile-link list: the selected profile's link followed by one link
per element of the enumeration of the `distinct_profiles` set. -/
def profileLinkList (curieFor : String → String) (selected : PMT)
    (profEnum : List (String × String)) : List String :=
  selfProfLink selected :: profEnum.map (profLink curieFor)

/-- The Python set `{(pmt["profile"], pmt["title"]) for pmt in available}`
as its list of distinct elements in insertion order. -/
def distinctProfiles (available : List PMT) : List (String × String) :=
  (available.map (fun p => (p.profile, p.title))).dedup

/-- One mediatype link of `generate_response_headers`, labelled `self`
exactly when the combination equals the selected one. -/
def mtLink (systemUri currentPath : String) (curieFor : String → String)
    (selected pmt : PMT) : String :=
  "<" ++ systemUri ++ currentPath ++ "?_profile=" ++ curieFor pmt.profile ++
  "&_mediatype=" ++ pmt.mediatype ++ ">; rel=\"" ++
  (if pmt = selected then "self" else "alternate") ++ "\"; type=\"" ++
  pmt.mediatype ++ "\"; format=\"" ++ pmt.profile ++ "\""

/-- The same link with its `rel` label given explicitly. -/
def mtLinkWith (systemUri currentPath : String) (curieFor : String → String)
    (pmt : PMT) (rel : String) : String :=
  "<" ++ systemUri ++ currentPath ++ "?_profile=" ++ curieFor pmt.profile ++
  "&_mediatype=" ++ pmt.mediatype ++ ">; rel=\"" ++ rel ++ "\"; type=\"" ++
  pmt.mediatype ++ "\"; format=\"" ++ pmt.profile ++ "\""

/-- The mediatype-link list, one entry per element of `available` in list
order (no set is involved here). -/
def mediatypeLinkList (systemUri currentPath : String)
    (curieFor : String → String) (available : List PMT) (selected : PMT) :
    List String :=
  available.map (mtLink systemUri currentPath curieFor selected)

/-- `NegotiatedPMTs.generate_response_headers`, parameterised by the
enumeration order `profEnum` of the `distinct_profiles` set (an actual run
uses some permutation of `distinctProfiles available`). Returns the
`Content-Type` value and the `link` header value. -/
def generateResponseHeaders (systemUri currentPath : String)
    (curieFor : String → String) (available : List PMT) (selected : PMT)
    (profEnum : List (String × String)) : String × String :=
  (selected.mediatype,
   joinSep ", " (profileLinkList curieFor selected profEnum) ++ ", " ++
     joinSep ", " (mediatypeLinkList systemUri currentPath curieFor available selected))

/-! ## Embedding of prez/sparql/search_query.py -/

/-- One entry of `SearchQuery.inner_select_vars` (`prefix` renamed to
`pfx`): weight literal, filter function, pattern prefix, `"i"` flag. -/
structure BranchSpec where
  weight_val : Nat
  function : String
  pfx : String
  case_insensitive : Option Bool
deriving DecidableEq

/-- `inner_select_vars`: the three unioned matching strategies. -/
def innerSelectVars : List (String × BranchSpec) :=
  [("one", ⟨100, "LCASE", "", none⟩),
   ("two", ⟨20, "REGEX", "^", some true⟩),
   ("three", ⟨10, "REGEX", "", some true⟩)]

/-- The GROUP BY variables of `create_group_by_solution_modifier`. -/
def searchGroupByVars : List String := ["focus_node", "pred", "match"]

/-- SPARQL `REGEX(text, pat, flags)` for the patterns this module generates:
an optional leading `^` anchor followed by the literal search term (regex
metacharacters other than a leading `^` are not modelled; no claim uses
them). -/
def regexMatchLit (text pat : String) (ci : Bool) : Bool :=
  let anchored := pat.data.head? == some '^'
  let lit := if anchored then String.mk pat.data.tail else pat
  let l := if ci then (lowerStr lit).data else lit.data
  let t := if ci then (lowerStr text).data else text.data
  if anchored then isPre l t else containsSub l t

/-- The FILTER of one union branch of `create_inner_ggp` applied to a
candidate matched text `m`: `LCASE(?match) = "term"` for the exact branch,
`REGEX(?match, pfx + term, "i")` for the regex branches. -/
def branchMatches (spec : BranchSpec) (term m : String) : Bool :=
  if spec.function == "LCASE" then lowerStr m == spec.pfx ++ term
  else if spec.function == "REGEX" then
    regexMatchLit m (spec.pfx ++ term) (spec.case_insensitive == some true)
  else false

/-- The solutions of the inner union over a data graph: one row
`(focus_node, pred, match, w)` per branch whose FILTER accepts the triple,
with `?pred` constrained by the `VALUES` clause to `pred_vals` and `?w`
bound to the branch weight. -/
def unionRows (g : List (String × String × String)) (pred_vals : List String)
    (term : String) : List (String × String × String × Nat) :=
  innerSelectVars.flatMap (fun sv =>
    (g.filter (fun t => pred_vals.contains t.2.1 && branchMatches sv.2 term t.2.2)).map
      (fun t => (t.1, t.2.1, t.2.2, sv.2.weight_val)))

/-- The inner sub-select `SELECT ?focus_node ?pred ?match (SUM(?w) AS
?weight) ... GROUP BY ?focus_node ?pred ?match`: one output row per
distinct key, with the weights of all co-matching branches summed. -/
def groupedRows (g : List (String × String × String)) (pred_vals : List String)
    (term : String) : List ((String × String × String) × Nat) :=
  let rows := unionRows g pred_vals term
  let keys := (rows.map (fun r => (r.1, r.2.1, r.2.2.1))).dedup
  keys.map (fun k =>
    (k, ((rows.filter (fun r => (r.1, r.2.1, r.2.2.1) == k)).map
      (fun r => r.2.2.2)).sum))

/-- The summed weight the compiled search query assigns to a given
`(subject, predicate, text)` key, if that key matches at all. -/
def summedWeight (g : List (String × String × String)) (pred_vals : List String)
    (term s p m : String) : Option Nat :=
  ((groupedRows g pred_vals term).find? (fun kv => kv.1 == (s, p, m))).map
    (fun kv => kv.2)

/-! ## Embedding of the federated-search retry loop of prez/app.py -/

/-- The retry loop of the `search` route: `SkosSearch.federated_search` is
invoked over the full endpoint list (modelled by `attempt n`, the outcome
of the whole federation call number `n`, `none` = raised exception); on the
first success the loop breaks with those results; after three consecutive
failures `retries == 3` holds and a bare `Exception("Max retries reached")`
is raised. -/
def searchLoop {ρ : Type} (attempt : Nat → Option ρ) : Except String ρ :=
  match attempt 0 with
  | some r => Except.ok r
  | none =>
    match attempt 1 with
    | some r => Except.ok r
    | none =>
      match attempt 2 with
      | some r => Except.ok r
      | none => Except.error "Max retries reached"

/-! ## String infrastructure lemmas -/

theorem strData_append (a b : String) : (a ++ b).data = a.data ++ b.data := rfl

theorem countCh_append (c : Char) (a b : String) :
    countCh c (a ++ b) = countCh c a + countCh c b := by
  simp [countCh, strData_append, List.count_append]

theorem digitChar10_mem (n : Nat) :
    digitChar10 n ∈ ['0', '1', '2', '3', '4', '5', '6', '7', '8', '9'] := by
  unfold digitChar10
  repeat' split
  all_goals decide

theorem natReprAux_mem (fuel : Nat) :
    ∀ n x, x ∈ natReprAux fuel n → x ∈ ['0', '1', '2', '3', '4', '5', '6', '7', '8', '9'] := by
  induction fuel with
  | zero => intro n x hx; simp [natReprAux] at hx
  | succ f ih =>
    intro n x hx
    unfold natReprAux at hx
    split at hx
    · simp at hx; subst hx; exact digitChar10_mem n
    · rcases List.mem_append.mp hx with h | h
      · exact ih _ _ h
      · simp at h; subst h; exact digitChar10_mem _

theorem countCh_natRepr (c : Char)
    (hc : c ∉ ['0', '1', '2', '3', '4', '5', '6', '7', '8', '9']) (n : Nat) :
    countCh c (natRepr n) = 0 := by
  have : c ∉ natReprAux (n + 1) n := fun h => hc (natReprAux_mem _ _ _ h)
  simpa [countCh, natRepr] using List.count_eq_zero.mpr this

theorem countCh_repChar_ne {c c' : Char} (h : c ≠ c') (n : Nat) :
    countCh c (repChar c' n) = 0 := by
  simp [countCh, repChar, List.count_replicate]
  intro h2
  exact absurd h2.symm h

theorem countCh_joinSep (c : Char) (sep : String) (h : countCh c sep = 0)
    (l : List String) : countCh c (joinSep sep l) = (l.map (countCh c)).sum := by
  induction l with
  | nil => rfl
  | cons x t ih =>
    cases t with
    | nil => simp [joinSep]
    | cons y t2 =>
      simp only [joinSep, countCh_append, List.map_cons, List.sum_cons]
      rw [h]
      rw [List.map_cons, List.sum_cons] at ih
      omega

theorem countCh_joinAll (c : Char) (l : List String) :
    countCh c (joinAll l) = (l.map (countCh c)).sum := by
  induction l with
  | nil => rfl
  | cons x t ih => simp [joinAll, countCh_append, ih]

theorem isPre_append_self (pat rest : List Char) : isPre pat (pat ++ rest) = true := by
  induction pat with
  | nil => simp [isPre]
  | cons a t ih => simp [isPre, ih]

theorem containsSub_nil (l : List Char) : containsSub [] l = true := by
  cases l with
  | nil => simp [containsSub, List.isEmpty]
  | cons b t => simp [containsSub, isPre]

theorem containsSub_of_parts (pre pat post : List Char) :
    containsSub pat (pre ++ pat ++ post) = true := by
  induction pre with
  | nil =>
    cases hp : pat with
    | nil => simp [containsSub_nil]
    | cons a t =>
      subst hp
      have hpre := isPre_append_self (a :: t) post
      simp only [List.nil_append, List.cons_append] at *
      simp [containsSub, hpre]
  | cons b t ih =>
    simp only [List.cons_append, containsSub, Bool.or_eq_true]
    right
    simpa [List.append_assoc] using ih

theorem strContains_of_parts (pre pat post : String) :
    strContains (pre ++ pat ++ post) pat = true := by
  simpa [strContains, strData_append] using
    containsSub_of_parts pre.data pat.data post.data

theorem strAppend_assoc (a b c : String) : a ++ b ++ c = a ++ (b ++ c) := by
  apply String.ext
  simp [strData_append, List.append_assoc]

theorem joinSep_mem_split (sep : String) (l : List String) (x : String)
    (hx : x ∈ l) : ∃ a b : String, joinSep sep l = a ++ x ++ b := by
  induction l with
  | nil => cases hx
  | cons y t ih =>
    cases t with
    | nil =>
      simp at hx
      exact ⟨"", "", by simp [joinSep, hx]⟩
    | cons z t2 =>
      rcases List.mem_cons.mp hx with h | h
      · exact ⟨"", sep ++ joinSep sep (z :: t2), by simp [joinSep, h, strAppend_assoc]⟩
      · rcases ih h with ⟨a, b, hab⟩
        exact ⟨y ++ sep ++ a, b, by simp [joinSep, hab, strAppend_assoc]⟩

/-! ## Counting lemmas for the blank-node OPTIONAL nesting -/

theorem countCh_bnodeLine_open (i : Nat) : countCh '\x7b' (bnodeLine i) = 1 := by
  have h1 := countCh_natRepr '\x7b' (by decide) (i + 1)
  have h2 := countCh_natRepr '\x7b' (by decide) (i + 2)
  have h3 := countCh_repChar_ne (show ('\x7b' : Char) ≠ '\t' by decide) (i + 1)
  have h4 := countCh_repChar_ne (show ('\x7b' : Char) ≠ '\t' by decide) (i + 2)
  simp only [bnodeLine, countCh_append, h1, h2, h3, h4]
  decide

theorem countCh_bnodeLine_close (i : Nat) : countCh '\x7d' (bnodeLine i) = 0 := by
  have h1 := countCh_natRepr '\x7d' (by decide) (i + 1)
  have h2 := countCh_natRepr '\x7d' (by decide) (i + 2)
  have h3 := countCh_repChar_ne (show ('\x7d' : Char) ≠ '\t' by decide) (i + 1)
  have h4 := countCh_repChar_ne (show ('\x7d' : Char) ≠ '\t' by decide) (i + 2)
  simp only [bnodeLine, countCh_append, h1, h2, h3, h4]
  decide

theorem countCh_bnode_open_part (d : Nat) :
    countCh '\x7b' (joinSep "\n" ((List.range d).map bnodeLine)) = d := by
  rw [countCh_joinSep '\x7b' "\n" (by decide)]
  rw [List.map_map]
  simp only [Function.comp_def]
  rw [List.map_congr_left (fun x _ => countCh_bnodeLine_open x)]
  simp [List.map_const']

theorem countCh_bnode_close_part_zero (d : Nat) :
    countCh '\x7d' (joinSep "\n" ((List.range d).map bnodeLine)) = 0 := by
  rw [countCh_joinSep '\x7d' "\n" (by decide)]
  rw [List.map_map]
  simp only [Function.comp_def]
  rw [List.map_congr_left (fun x _ => countCh_bnodeLine_close x)]
  simp [List.map_const']

theorem countCh_bnode_closer_open (i : Nat) :
    countCh '\x7b' ("\n" ++ repChar '\t' (i + 1) ++ "\x7d") = 0 := by
  have h3 := countCh_repChar_ne (show ('\x7b' : Char) ≠ '\t' by decide) (i + 1)
  simp only [countCh_append, h3]
  decide

theorem countCh_bnode_closer_close (i : Nat) :
    countCh '\x7d' ("\n" ++ repChar '\t' (i + 1) ++ "\x7d") = 1 := by
  have h3 := countCh_repChar_ne (show ('\x7d' : Char) ≠ '\t' by decide) (i + 1)
  simp only [countCh_append, h3]
  decide

theorem countCh_bnode_select_open (d : Nat) :
    countCh '\x7b' (generate_bnode_select d) = d := by
  unfold generate_bnode_select
  rw [countCh_append, countCh_bnode_open_part, countCh_joinAll]
  rw [List.map_map]
  simp only [Function.comp_def]
  rw [List.map_congr_left (fun x _ => countCh_bnode_closer_open x)]
  simp [List.map_const']

theorem countCh_bnode_select_close (d : Nat) :
    countCh '\x7d' (generate_bnode_select d) = d := by
  unfold generate_bnode_select
  rw [countCh_append, countCh_bnode_close_part_zero, countCh_joinAll]
  rw [List.map_map]
  simp only [Function.comp_def]
  rw [List.map_congr_left (fun x _ => countCh_bnode_closer_close x)]
  simp [List.map_const']

/-- C7: blank-node depth bound. For every depth `d` the bnode select emitted
into the item query opens exactly `d` OPTIONAL blocks and closes exactly
`d` blocks; at the default depth 2 the emitted text is precisely two nested
OPTIONAL blocks, each guarded by `FILTER(ISBLANK(?o_i))` on the object of
the previous level and chaining `?o_i ?p_(i+1) ?o_(i+1)`, with no third
level guard `ISBLANK(?o3)`; a profile without a `bnode_depth` entry
compiles identically to one with `bnode_depth = 2` (default 2); and the
item construct query embeds `generate_bnode_select` at the profile's
depth. -/
theorem c7_bnode_depth_bound :
    (∀ d : Nat, countCh '\x7b' (generate_bnode_select d) = d ∧
      countCh '\x7d' (generate_bnode_select d) = d) ∧
    generate_bnode_select 2 =
      "\tOPTIONAL \x7b\n\t\tFILTER(ISBLANK(?o1))\n\t\t?o1 ?p2 ?o2 .\n\t\tOPTIONAL \x7b\n\t\t\tFILTER(ISBLANK(?o2))\n\t\t\t?o2 ?p3 ?o3 .\n\t\t\x7d\n\t\x7d" ∧
    strContains (generate_bnode_select 2) "FILTER(ISBLANK(?o1))" = true ∧
    strContains (generate_bnode_select 2) "FILTER(ISBLANK(?o2))" = true ∧
    strContains (generate_bnode_select 2) "ISBLANK(?o3)" = false ∧
    (∀ (g : RdfGraph) (item_uri item_general_class : String)
      (uri_ : Option String) (extra : List (String × String)),
      generate_item_construct g item_uri item_general_class ⟨uri_, none, extra⟩ =
        generate_item_construct g item_uri item_general_class ⟨uri_, some 2, extra⟩) ∧
    (∀ (g : RdfGraph) (item_uri item_general_class : String) (prof : ProfileDict),
      ∃ pre post : String,
        generate_item_construct g item_uri item_general_class prof =
          pre ++ generate_bnode_select (prof.bnode_depth.getD 2) ++ post) := by
  refine ⟨fun d => ⟨countCh_bnode_select_open d, countCh_bnode_select_close d⟩,
    by decide, by decide, by decide, by decide,
    fun g iu ic uri_ extra => rfl, ?_⟩
  intro g item_uri item_general_class prof
  rcases hgp : get_profile_predicates g prof item_general_class with
    ⟨incl, excl, inv, seqs, lg⟩
  refine ⟨"PREFIX rdfs: <http://www.w3.org/2000/01/rdf-schema#>\n\n" ++
    "CONSTRUCT \x7b\n" ++ "\t<" ++ item_uri ++ "> ?p ?o1 .\n" ++
    (if seqs.isEmpty then ""
     else generate_sequence_construct item_uri seqs) ++ " " ++
    (if inv.isEmpty then ""
     else "\t?s ?inbound_p <" ++ item_uri ++ "> .") ++ " " ++
    generate_bnode_construct (prof.bnode_depth.getD 2) ++ " " ++
    "\n\x7d\n" ++ "WHERE \x7b\n" ++ "    \x7b\n" ++
    "    <" ++ item_uri ++ "> ?p ?o1 . " ++
    "    " ++ (if seqs.isEmpty then "\n"
               else generate_sequence_construct item_uri seqs) ++ " " ++
    "    " ++ (if inv.isEmpty then "\n"
               else "?s ?inbound_p <" ++ item_uri ++ ">\n") ++ " " ++
    "    " ++ generate_include_predicates incl ++ " " ++
    "    " ++ generate_inverse_predicates inv ++ " " ++
    "    ",
    " " ++ "    \x7d " ++ "    " ++
    (if lg.isEmpty then ""
     else generage_large_outbound_links item_uri lg) ++ " " ++ "\x7d\n", ?_⟩
  simp only [generate_item_construct, hgp, itemConstructCore, strAppend_assoc]

/-- C2 counterexample: with the predicate `http://ex.org/p` appearing in
both the include list and the exclude list handed to the item-query body,
the compiled query still carries that predicate inside the include
`VALUES ?p` clause — exclude does not win. -/
theorem c2_counterexample :
    ("http://ex.org/p" ∈ (["http://ex.org/p"] : List String)) ∧
    strContains
      (itemConstructCore "http://ex.org/x" ["http://ex.org/p"]
        (["http://ex.org/p"] : List String) [] [] [] 2)
      "VALUES ?p\x7b\n<http://ex.org/p>\n\x7d" = true := by
  constructor
  · decide
  · decide

/-- C2 (amended): there is no exclude-wins tie-break. The compiled item
query is byte-identical for any two exclude values (the slot is bound but
never read), the include `VALUES ?p` clause lists every include predicate —
also one listed in exclude — and the resolver's exclude slot is only ever
the unpopulated `Ellipsis` placeholder, never a predicate list. -/
theorem c2_exclude_ignored :
    (∀ {α β : Type} (uri : String) (incl : List String) (e1 : α) (e2 : β)
      (inv : List String) (seqs : List (List String)) (lg : List String) (d : Nat),
      itemConstructCore uri incl e1 inv seqs lg d =
        itemConstructCore uri incl e2 inv seqs lg d) ∧
    (∀ (p : String) (incl : List String), p ∈ incl →
      ∃ a b : String,
        generate_include_predicates incl = a ++ ("<" ++ p ++ ">") ++ b) ∧
    (∀ (g : RdfGraph) (prof : ProfileDict) (cls : String),
      (get_profile_predicates g prof cls).2.1 = none ∨
      (get_profile_predicates g prof cls).2.1 = some PyEllipsis.mk) := by
  refine ⟨fun uri incl e1 e2 inv seqs lg d => rfl, ?_, ?_⟩
  · intro p incl hp
    cases incl with
    | nil => cases hp
    | cons q t =>
      have hmem : "<" ++ p ++ ">" ∈ (q :: t).map (fun x => "<" ++ x ++ ">") :=
        List.mem_map_of_mem _ hp
      rcases joinSep_mem_split "\n" _ _ hmem with ⟨a, b, hj⟩
      refine ⟨"VALUES ?p\x7b\n" ++ a, b ++ "\n\x7d", ?_⟩
      simp only [generate_include_predicates, List.isEmpty_cons, Bool.false_eq_true,
        if_false]
      rw [hj]
      simp only [strAppend_assoc]
  · intro g prof cls
    rcases h : (get_profile_predicates g prof cls).2.1 with _ | e
    · exact Or.inl rfl
    · cases e; exact Or.inr rfl

/-- C4: pagination correctness. With both `page` and `per_page` supplied the
listing query ends in exactly `LIMIT per_page OFFSET (page-1)*per_page`
(so page=2, per_page=20 yields `LIMIT 20 OFFSET 20` and page=1 yields
`OFFSET 0`); with either absent, no LIMIT/OFFSET clause is emitted at all. -/
theorem c4_pagination :
    paginationClause (some 2) (some 20) = "LIMIT 20 OFFSET 20" ∧
    (∀ pp : Int, paginationClause (some 1) (some pp) =
      "LIMIT " ++ intRepr pp ++ " OFFSET 0") ∧
    (∀ (item : SpatialItem) (prof : ProfileDict) (pg pp : Int),
      generate_listing_construct item (some pg) (some pp) prof =
        listingConstructBody item ++
          ("LIMIT " ++ intRepr pp ++ " OFFSET " ++ intRepr ((pg - 1) * pp)) ++
          "\n    ") ∧
    (∀ (item : SpatialItem) (prof : ProfileDict) (page per_page : Option Int),
      page = none ∨ per_page = none →
      generate_listing_construct item page per_page prof =
        listingConstructBody item ++ "\n    ") ∧
    strContains
      (generate_listing_construct
        ⟨some "http://ex.org/d", "http://ex.org/C", "http://ex.org/c/"⟩
        none none ⟨none, none, []⟩) "LIMIT" = false ∧
    strContains
      (generate_listing_construct
        ⟨some "http://ex.org/d", "http://ex.org/C", "http://ex.org/c/"⟩
        none none ⟨none, none, []⟩) "OFFSET" = false ∧
    strContains
      (generate_listing_construct
        ⟨some "http://ex.org/d", "http://ex.org/C", "http://ex.org/c/"⟩
        (some 2) (some 20) ⟨none, none, []⟩) "LIMIT 20 OFFSET 20" = true := by
  refine ⟨by decide, ?_, fun item prof pg pp => rfl, ?_, by decide, by decide, by decide⟩
  · intro pp
    show "LIMIT " ++ intRepr pp ++ " OFFSET " ++ intRepr ((1 - 1) * pp) = _
    rw [show (1 - 1 : Int) * pp = 0 by ring]
    rw [strAppend_assoc]
    rw [show (" OFFSET " ++ intRepr 0 : String) = " OFFSET 0" by decide]
  · intro item prof page per_page h
    have hemp : ("" : String).data = [] := rfl
    rcases h with h | h
    · subst h
      cases per_page <;>
        (apply String.ext; simp [generate_listing_construct, paginationClause,
          strData_append, hemp])
    · subst h
      cases page <;>
        (apply String.ext; simp [generate_listing_construct, paginationClause,
          strData_append, hemp])

/-- C4 witness: with `page` absent (and `per_page = 5`) the compiled listing
query is the bare listing body with no pagination clause. -/
theorem c4_pagination_witness :
    generate_listing_construct
      ⟨some "http://ex.org/d", "http://ex.org/C", "http://ex.org/c/"⟩
      none (some 5) ⟨none, none, []⟩ =
      listingConstructBody
        ⟨some "http://ex.org/d", "http://ex.org/C", "http://ex.org/c/"⟩ ++ "\n    " :=
  c4_pagination.2.2.2.1
    ⟨some "http://ex.org/d", "http://ex.org/C", "http://ex.org/c/"⟩
    ⟨none, none, []⟩ none (some 5) (Or.inl rfl)

/-- C10: the listing compilation ignores the profile argument — for any two
profile dictionaries the compiled listing query text is byte-identical. -/
theorem c10_listing_profile_independent :
    ∀ (item : SpatialItem) (page per_page : Option Int) (p1 p2 : ProfileDict),
      generate_listing_construct item page per_page p1 =
        generate_listing_construct item page per_page p2 :=
  fun _ _ _ _ _ => rfl

/-- C5: evaluation of `_tupilize` at a malformed weight. For
`"text/turtle;q=high"` the returned tuple carries the unparsed string
`"high"` as its weight — the source logs "Defaulting to 1.0" but never
assigns the default, so the tuple does not carry a float weight. The
well-formed cases (no weight given, parseable weight) do behave as
specified. -/
theorem c5_weight_not_defaulted :
    tupilize ⟨1, 0⟩ "text/turtle;q=high" = ("text/turtle", PyVal.str "high") ∧
    tupilize ⟨1, 0⟩ "text/turtle" = ("text/turtle", PyVal.num ⟨1, 0⟩) ∧
    tupilize ⟨1, 0⟩ "text/turtle;q=0.5" = ("text/turtle", PyVal.num ⟨5, 1⟩) := by
  refine ⟨by decide, by decide, by decide⟩

/-- C1: evaluation of `_resolve_token`'s query construction at a token
containing a double quote. The raw token `a"b` is substituted unescaped
into the Literal position of the FILTER, leaving the query with three
quote characters — it ends inside an open string literal and is not
well-formed — while a benign token yields balanced quotes. -/
theorem c1_token_injection :
    countCh '\x22' (resolveTokenQuery "a\"b") = 3 ∧
    quoteBalanced (resolveTokenQuery "a\"b") = false ∧
    strContains (resolveTokenQuery "a\"b") "FILTER(?o=\"a\"b\"^^xsd:token)" = true ∧
    quoteBalanced (resolveTokenQuery "exprof") = true ∧
    countCh '\x22' (resolveTokenQuery "exprof") = 2 := by
  refine ⟨by decide, by decide, by decide, by decide, by decide⟩

/-- C3: negotiation ranking and selection. The compiled
available-combinations query always carries the ordering directive
`ORDER BY DESC(?req_profile) DESC(?distance) DESC(?def_profile)
DESC(?req_format) DESC(?def_format)`; `setup` commits the element at index
0 of the (engine-ordered) result list as the selection and retains the
full list as the alternates set; and under the descending lexicographic
order those keys denote, a requested-profile match ranks above any
non-match, and among non-matches a larger subclass distance ranks above
any default-flag combination. -/
theorem c3_negotiation_ranking :
    (∀ (listing : Bool) (classes : List String)
      (rp rm : Option (List (String × PyVal))) (mtEnum : List String),
      ∃ a b : String, composeSelectQuery listing classes rp rm mtEnum =
        a ++ "ORDER BY DESC(?req_profile) DESC(?distance) DESC(?def_profile) DESC(?req_format) DESC(?def_format)" ++ b) ∧
    (∀ (rows : List PMT) (sel : PMT) (alts : List PMT),
      setupFrom rows = Except.ok (sel, alts) →
      alts = rows ∧ alts.head? = some sel) ∧
    (∀ a b : RankRow, a.req_profile = true → b.req_profile = false →
      rankAbove a b) ∧
    (∀ a b : RankRow, a.req_profile = b.req_profile → b.distance < a.distance →
      rankAbove a b) := by
  refine ⟨?_, ?_, ?_, ?_⟩
  · intro listing classes rp rm mtEnum
    refine ⟨composeSelectBody listing classes rp rm mtEnum ++
      "            GROUP BY ?class ?profile ?req_profile ?def_profile ?format ?req_format ?def_format ?title\n" ++
      "            ", "\n" ++ "            ", ?_⟩
    show composeSelectBody listing classes rp rm mtEnum ++ orderByTail = _
    rw [show orderByTail =
      "            GROUP BY ?class ?profile ?req_profile ?def_profile ?format ?req_format ?def_format ?title\n" ++
      ("            " ++
        ("ORDER BY DESC(?req_profile) DESC(?distance) DESC(?def_profile) DESC(?req_format) DESC(?def_format)" ++
          ("\n" ++ "            "))) from by decide]
    simp only [strAppend_assoc]
  · intro rows sel alts h
    cases rows with
    | nil => simp [setupFrom, getAvailable] at h
    | cons r t =>
      simp [setupFrom, getAvailable] at h
      obtain ⟨h1, h2⟩ := h
      subst h1
      subst h2
      exact ⟨rfl, rfl⟩
  · intro a b ha hb
    exact Or.inl ⟨ha, hb⟩
  · intro a b hab hd
    exact Or.inr ⟨hab, Or.inl hd⟩

/-- C3 witness: concrete instances — a one-row available list commits that
row and retains it as the only alternate, a requested-profile match
outranks a default-only combination, and among non-matches a larger
subclass distance outranks a default-flagged one. -/
theorem c3_negotiation_ranking_witness :
    (([⟨"p", "t", "text/turtle", "c"⟩] : List PMT) = [⟨"p", "t", "text/turtle", "c"⟩] ∧
      ([⟨"p", "t", "text/turtle", "c"⟩] : List PMT).head? = some ⟨"p", "t", "text/turtle", "c"⟩) ∧
    rankAbove ⟨true, 0, false, "", false⟩ ⟨false, 7, true, "1.0", true⟩ ∧
    rankAbove ⟨false, 3, false, "", false⟩ ⟨false, 1, true, "1.0", true⟩ :=
  ⟨c3_negotiation_ranking.2.1 [⟨"p", "t", "text/turtle", "c"⟩]
      ⟨"p", "t", "text/turtle", "c"⟩ [⟨"p", "t", "text/turtle", "c"⟩] rfl,
   c3_negotiation_ranking.2.2.1 ⟨true, 0, false, "", false⟩
      ⟨false, 7, true, "1.0", true⟩ rfl rfl,
   c3_negotiation_ranking.2.2.2 ⟨false, 3, false, "", false⟩
      ⟨false, 1, true, "1.0", true⟩ rfl (by decide)⟩

theorem strAppend_left_cancel {a b c : String} (h : a ++ b = a ++ c) : b = c := by
  apply String.ext
  have hd := congrArg String.data h
  rw [strData_append, strData_append] at hd
  exact List.append_cancel_left hd

theorem strAppend_right_cancel {a b c : String} (h : a ++ c = b ++ c) : a = b := by
  apply String.ext
  have hd := congrArg String.data h
  rw [strData_append, strData_append] at hd
  exact List.append_cancel_right hd

theorem composeSelect_enum_determined (listing : Bool) (classes : List String)
    (rp rm : Option (List (String × PyVal))) (e1 e2 : List String)
    (h : composeSelectQuery listing classes rp rm e1 =
      composeSelectQuery listing classes rp rm e2) :
    mkMediatypeIfs rm e1 = mkMediatypeIfs rm e2 := by
  unfold composeSelectQuery composeSelectBody at h
  have h1 := strAppend_right_cancel h
  have h2 := strAppend_right_cancel h1
  have h3 := strAppend_right_cancel h2
  have h4 := strAppend_right_cancel h3
  exact strAppend_left_cancel h4

/-- C6 counterexample: two legitimate enumeration orders of the same
Python set of requested-mediatype IF lines (a list and its reverse, as set
iteration order is not fixed by identical input across runs) produce
different generated IF text and hence different available-combinations
query text, so byte-identical query text is not guaranteed for identical
negotiation input. -/
theorem c6_counterexample :
    ((ifLineSet [("text/turtle", PyVal.num ⟨1, 0⟩), ("application/ld+json", PyVal.num ⟨1, 0⟩)]).reverse).Perm (ifLineSet [("text/turtle", PyVal.num ⟨1, 0⟩), ("application/ld+json", PyVal.num ⟨1, 0⟩)]) ∧
    mkMediatypeIfs (some [("text/turtle", PyVal.num ⟨1, 0⟩), ("application/ld+json", PyVal.num ⟨1, 0⟩)]) (ifLineSet [("text/turtle", PyVal.num ⟨1, 0⟩), ("application/ld+json", PyVal.num ⟨1, 0⟩)]) ≠
      mkMediatypeIfs (some [("text/turtle", PyVal.num ⟨1, 0⟩), ("application/ld+json", PyVal.num ⟨1, 0⟩)]) ((ifLineSet [("text/turtle", PyVal.num ⟨1, 0⟩), ("application/ld+json", PyVal.num ⟨1, 0⟩)]).reverse) ∧
    composeSelectQuery false ["http://ex.org/C"] none (some [("text/turtle", PyVal.num ⟨1, 0⟩), ("application/ld+json", PyVal.num ⟨1, 0⟩)]) (ifLineSet [("text/turtle", PyVal.num ⟨1, 0⟩), ("application/ld+json", PyVal.num ⟨1, 0⟩)]) ≠
      composeSelectQuery false ["http://ex.org/C"] none (some [("text/turtle", PyVal.num ⟨1, 0⟩), ("application/ld+json", PyVal.num ⟨1, 0⟩)])
        ((ifLineSet [("text/turtle", PyVal.num ⟨1, 0⟩), ("application/ld+json", PyVal.num ⟨1, 0⟩)]).reverse) := by
  refine ⟨List.reverse_perm _, by decide, fun h => ?_⟩
  exact absurd (composeSelect_enum_determined _ _ _ _ _ _ h) (by decide)

/-- C6 (amended): negotiation output is deterministic given the available
list and the set-enumeration orders. The set of IF lines is determined by
the input up to permutation; permuting the profile-set enumeration permutes
the profile links without changing their content; the self-versus-alternate
label of every mediatype link is a function of the combination's equality
with the selected one only (never of any iteration order); and the
Content-Type header is the selected mediatype for every enumeration. -/
theorem c6_negotiation_determinism_amended :
    (∀ (mts : List (String × PyVal)) (e1 e2 : List String),
      e1.Perm (ifLineSet mts) → e2.Perm (ifLineSet mts) → e1.Perm e2) ∧
    (∀ (curieFor : String → String) (sel : PMT) (e1 e2 : List (String × String)),
      e1.Perm e2 →
      (profileLinkList curieFor sel e1).Perm (profileLinkList curieFor sel e2)) ∧
    (∀ (systemUri currentPath : String) (curieFor : String → String) (sel pmt : PMT),
      (pmt = sel →
        mtLink systemUri currentPath curieFor sel pmt =
          mtLinkWith systemUri currentPath curieFor pmt "self") ∧
      (pmt ≠ sel →
        mtLink systemUri currentPath curieFor sel pmt =
          mtLinkWith systemUri currentPath curieFor pmt "alternate")) ∧
    (∀ (systemUri currentPath : String) (curieFor : String → String)
      (av : List PMT) (sel : PMT) (e : List (String × String)),
      (generateResponseHeaders systemUri currentPath curieFor av sel e).1 =
        sel.mediatype) := by
  refine ⟨?_, ?_, ?_, fun _ _ _ _ _ _ => rfl⟩
  · intro mts e1 e2 h1 h2
    exact h1.trans h2.symm
  · intro curieFor sel e1 e2 h
    exact List.Perm.cons _ (h.map (profLink curieFor))
  · intro su cp cf sel pmt
    constructor
    · intro h
      simp [mtLink, mtLinkWith, h]
    · intro h
      simp [mtLink, mtLinkWith, h]

/-- C6 witness: the amended determinism facts instantiated at concrete
input — a two-mediatype set enumerated forwards and backwards, a two-entry
profile enumeration and its transposition, and a selected/non-selected
combination. -/
theorem c6_negotiation_determinism_witness :
    (ifLineSet [("text/turtle", PyVal.num ⟨1, 0⟩),
        ("application/ld+json", PyVal.num ⟨1, 0⟩)]).Perm
      ((ifLineSet [("text/turtle", PyVal.num ⟨1, 0⟩),
        ("application/ld+json", PyVal.num ⟨1, 0⟩)]).reverse) ∧
    (profileLinkList id ⟨"p", "t", "text/turtle", "c"⟩
        [("p", "t"), ("p2", "t2")]).Perm
      (profileLinkList id ⟨"p", "t", "text/turtle", "c"⟩
        [("p2", "t2"), ("p", "t")]) ∧
    mtLink "http://sys" "/path" id ⟨"p", "t", "text/turtle", "c"⟩
        ⟨"p", "t", "text/turtle", "c"⟩ =
      mtLinkWith "http://sys" "/path" id ⟨"p", "t", "text/turtle", "c"⟩ "self" ∧
    mtLink "http://sys" "/path" id ⟨"p", "t", "text/turtle", "c"⟩
        ⟨"p2", "t2", "text/html", "c"⟩ =
      mtLinkWith "http://sys" "/path" id ⟨"p2", "t2", "text/html", "c"⟩ "alternate" :=
  ⟨c6_negotiation_determinism_amended.1
      [("text/turtle", PyVal.num ⟨1, 0⟩), ("application/ld+json", PyVal.num ⟨1, 0⟩)]
      _ _ (List.Perm.refl _) (List.reverse_perm _),
   c6_negotiation_determinism_amended.2.1 id ⟨"p", "t", "text/turtle", "c"⟩
      [("p", "t"), ("p2", "t2")] [("p2", "t2"), ("p", "t")]
      (List.Perm.swap _ _ _),
   (c6_negotiation_determinism_amended.2.2.1 "http://sys" "/path" id
      ⟨"p", "t", "text/turtle", "c"⟩ ⟨"p", "t", "text/turtle", "c"⟩).1 rfl,
   (c6_negotiation_determinism_amended.2.2.1 "http://sys" "/path" id
      ⟨"p", "t", "text/turtle", "c"⟩ ⟨"p2", "t2", "text/html", "c"⟩).2 (by decide)⟩

theorem containsSub_of_isPre {pat l : List Char} (h : isPre pat l = true) :
    containsSub pat l = true := by
  cases l with
  | nil =>
    cases pat with
    | nil => rfl
    | cons a t => simp [isPre] at h
  | cons b t => simp [containsSub, h]

/-- C8 counterexample: for the search term `apple` a stored value `apple`
matches both the exact strategy and the prefix strategy, yet the grouped
sum of branch weights is 130 (the substring branch co-matches as well),
not 120. -/
theorem c8_counterexample :
    branchMatches ⟨100, "LCASE", "", none⟩ "apple" "apple" = true ∧
    branchMatches ⟨20, "REGEX", "^", some true⟩ "apple" "apple" = true ∧
    summedWeight [("s", "p", "apple")] ["p"] "apple" "s" "p" "apple" = some 130 ∧
    summedWeight [("s", "p", "apple")] ["p"] "apple" "s" "p" "apple" ≠ some 120 := by
  refine ⟨by decide, by decide, by decide, by decide⟩

/-- C8 (amended): the three unioned strategies bind weights 100 (exact
case-insensitive match via LCASE), 20 (case-insensitive anchored-prefix
REGEX) and 10 (case-insensitive substring REGEX); grouping is by
(focus_node, pred, match) and sums the branch weights of every co-matching
branch — and since every anchored-prefix match is also a substring match, a
value matching both the exact and the prefix strategy accumulates 130, not
120; a value matching only the substring strategy gets 10; and the grouped
output has one row per distinct (subject, predicate, text) key. -/
theorem c8_search_weights_amended :
    innerSelectVars.map (fun sv => sv.2.weight_val) = [100, 20, 10] ∧
    innerSelectVars.map (fun sv => sv.2.function) = ["LCASE", "REGEX", "REGEX"] ∧
    innerSelectVars.map (fun sv => sv.2.pfx) = ["", "^", ""] ∧
    searchGroupByVars = ["focus_node", "pred", "match"] ∧
    (∀ term m : String, term.data.head? ≠ some '^' →
      regexMatchLit m ("^" ++ term) true = true →
      regexMatchLit m term true = true) ∧
    (∀ (s p m term : String) (preds : List String), p ∈ preds →
      summedWeight [(s, p, m)] preds term s p m =
        (if branchMatches ⟨100, "LCASE", "", none⟩ term m ∨
            branchMatches ⟨20, "REGEX", "^", some true⟩ term m ∨
            branchMatches ⟨10, "REGEX", "", some true⟩ term m
         then some ((if branchMatches ⟨100, "LCASE", "", none⟩ term m then 100 else 0) +
                    (if branchMatches ⟨20, "REGEX", "^", some true⟩ term m then 20 else 0) +
                    (if branchMatches ⟨10, "REGEX", "", some true⟩ term m then 10 else 0))
         else none)) ∧
    (∀ (g : List (String × String × String)) (preds : List String) (term : String),
      ((groupedRows g preds term).map Prod.fst).Nodup) := by
  refine ⟨rfl, rfl, rfl, rfl, ?_, ?_, ?_⟩
  · intro term m hcaret h
    have hda : ("^" ++ term).data = '^' :: term.data := by
      rw [strData_append]; rfl
    have hg : (term.data.head? == some '^') = false := beq_eq_false_iff_ne.mpr hcaret
    simp only [regexMatchLit, hda, List.head?_cons, beq_self_eq_true, if_true,
      List.tail_cons] at h
    simp only [regexMatchLit, hg, Bool.false_eq_true, if_false]
    exact containsSub_of_isPre h
  · intro s p m term preds hp
    cases h1 : branchMatches ⟨100, "LCASE", "", none⟩ term m <;>
    cases h2 : branchMatches ⟨20, "REGEX", "^", some true⟩ term m <;>
    cases h3 : branchMatches ⟨10, "REGEX", "", some true⟩ term m <;>
      simp [summedWeight, groupedRows, unionRows, innerSelectVars, h1, h2, h3, hp,
        List.find?, List.dedup_cons_of_mem, List.dedup_nil]
  · intro g preds term
    simp [groupedRows, List.map_map, Function.comp_def, List.nodup_dedup]

/-- C8 witness: at concrete inputs — an anchored-prefix match `apple` on
`apples` is also a substring match, and a stored value `Apple` with search
term `apple` (matching all three strategies case-insensitively) receives
the summed weight 130. -/
theorem c8_search_weights_witness :
    regexMatchLit "apples" "apple" true = true ∧
    summedWeight [("s", "p", "Apple")] ["p"] "apple" "s" "p" "Apple" = some 130 := by
  constructor
  · exact c8_search_weights_amended.2.2.2.2.1 "apple" "apples" (by decide) (by decide)
  · have h := c8_search_weights_amended.2.2.2.2.2.1 "s" "p" "Apple" "apple" ["p"]
      (by decide)
    rw [h]
    decide

/-- C9 counterexample: when all three invocations of the federated search
fail, the route raises the bare exception `Max retries reached` and returns
no results at all — not a `SearchUnavailable` error carrying the partial
results of already-succeeded endpoints (the retry counter counts whole
federation attempts over the full endpoint list, not per-endpoint
attempts). -/
theorem c9_counterexample :
    searchLoop (fun _ => (none : Option (List String))) =
      Except.error "Max retries reached" ∧
    "Max retries reached" ≠ "SearchUnavailable" := by
  exact ⟨rfl, by decide⟩

/-- C9 (amended): the whole federated-search call is attempted at most 3
times: the first successful attempt's results are returned; after three
consecutive failures the route fails with the generic exception
`Max retries reached` and no results; and only the first three attempt
outcomes can influence the result. -/
theorem c9_search_retry_amended :
    (∀ {ρ : Type} (attempt : Nat → Option ρ),
      attempt 0 = none → attempt 1 = none → attempt 2 = none →
      searchLoop attempt = Except.error "Max retries reached") ∧
    (∀ {ρ : Type} (attempt : Nat → Option ρ) (r : ρ),
      attempt 0 = some r → searchLoop attempt = Except.ok r) ∧
    (∀ {ρ : Type} (attempt : Nat → Option ρ) (r : ρ),
      attempt 0 = none → attempt 1 = some r → searchLoop attempt = Except.ok r) ∧
    (∀ {ρ : Type} (attempt : Nat → Option ρ) (r : ρ),
      attempt 0 = none → attempt 1 = none → attempt 2 = some r →
      searchLoop attempt = Except.ok r) ∧
    (∀ {ρ : Type} (a1 a2 : Nat → Option ρ),
      (∀ i, i < 3 → a1 i = a2 i) → searchLoop a1 = searchLoop a2) := by
  refine ⟨?_, ?_, ?_, ?_, ?_⟩
  · intro ρ attempt h0 h1 h2
    simp [searchLoop, h0, h1, h2]
  · intro ρ attempt r h0
    simp [searchLoop, h0]
  · intro ρ attempt r h0 h1
    simp [searchLoop, h0, h1]
  · intro ρ attempt r h0 h1 h2
    simp [searchLoop, h0, h1, h2]
  · intro ρ a1 a2 h
    unfold searchLoop
    rw [h 0 (by omega), h 1 (by omega), h 2 (by omega)]

/-- C9 witness: an attempt function failing twice and succeeding on the
third (last allowed) attempt returns the third attempt's results. -/
theorem c9_search_retry_witness :
    searchLoop (fun n => if n = 2 then some [42] else (none : Option (List Nat))) =
      Except.ok [42] :=
  c9_search_retry_amended.2.2.2.1
    (fun n => if n = 2 then some [42] else (none : Option (List Nat))) [42]
    rfl rfl rfl

/-- C2 witness: the include `VALUES ?p` clause built from an include list
containing `http://ex.org/p` carries that predicate. -/
theorem c2_exclude_ignored_witness :
    ∃ a b : String, generate_include_predicates ["http://ex.org/p"] =
      a ++ ("<" ++ "http://ex.org/p" ++ ">") ++ b :=
  c2_exclude_ignored.2.1 "http://ex.org/p" ["http://ex.org/p"] (by decide)
